import Mathlib

/-!
Shallow embedding of the inventory dashboard's domain logic and action
handlers, translated from the repository's React components:

* `Reports` and `Dashboard` (src/src/components/Reports.tsx): the stock-status
  classification `getProductStatus`, the inline status badges of both tables,
  the aggregate metrics (product count, total value, low-stock count, stock
  health percentage), the export handlers `exportToPDF` / `exportToExcel`, and
  the action handlers `handleRestock` / `handleSell`;
* `AddProduct` (src/unnamed/part_000): the form state and `handleSubmit`.

Numbers: `quantity` and `reorderLevel` are non-negative integers (`Nat`),
`price` and monetary sums are exact rationals (`ℚ`), matching the data-model
invariant; JavaScript's `Math.round` is modelled by `jsRound`.  The externally
supplied asynchronous collaborators (`onUpdateStock`, `onAddProduct`,
`ExportService`) are opaque: a handler run is parametrised by the collaborator
call's `Outcome` (resolution or rejection), and the embedding records the
calls issued, the toasts shown, the handler's final flag state and whether an
exception escapes the handler.
-/

namespace Inventory

/-- The `Product` interface shared by all three components. -/
structure Product where
  id : String
  name : String
  sku : String
  quantity : Nat
  price : ℚ
  reorderLevel : Nat
deriving DecidableEq, Repr

/-- The three status tiers of `getProductStatus` / the Reports status badge. -/
inductive StockStatus where
  | LowStock
  | Medium
  | Good
deriving DecidableEq, Repr

/-- `getProductStatus` (Reports.tsx lines 35-39) as a pure function of the two
numbers it reads: `quantity <= reorderLevel` gives Low Stock, else
`quantity <= reorderLevel * 1.5` gives Medium, else Good. -/
def classify (quantity reorderLevel : Nat) : StockStatus :=
  if quantity ≤ reorderLevel then StockStatus.LowStock
  else if (quantity : ℚ) ≤ (reorderLevel : ℚ) * (3 / 2) then StockStatus.Medium
  else StockStatus.Good

/-- The display label of each tier, as the badges render it. -/
def statusLabel : StockStatus → String
  | StockStatus.LowStock => "Low Stock"
  | StockStatus.Medium => "Medium"
  | StockStatus.Good => "Good"

/-- `getProductStatus` itself (Reports.tsx lines 35-39), returning the string
the source returns. -/
def getProductStatus (product : Product) : String :=
  if product.quantity ≤ product.reorderLevel then "Low Stock"
  else if (product.quantity : ℚ) ≤ (product.reorderLevel : ℚ) * (3 / 2) then "Medium"
  else "Good"

/-- The inline three-way badge of the Reports stock-levels table
(Reports.tsx lines 250-258). -/
def reportsStatusBadge (product : Product) : String :=
  if product.quantity ≤ product.reorderLevel then "Low Stock"
  else if (product.quantity : ℚ) ≤ (product.reorderLevel : ℚ) * (3 / 2) then "Medium"
  else "Good"

/-- The inline badge of the Dashboard product table (Dashboard portion of
Reports.tsx): `quantity <= reorderLevel` shows "Low Stock", otherwise "OK" —
only two tiers, with no Medium case. -/
def dashboardStatusBadge (product : Product) : String :=
  if product.quantity ≤ product.reorderLevel then "Low Stock" else "OK"

/-- The Dashboard sell button's `disabled={product.quantity === 0}`. -/
def sellButtonDisabled (product : Product) : Bool :=
  product.quantity == 0

/-- The AddProduct submit button's `disabled={loading}`. -/
def submitButtonDisabled (loading : Bool) : Bool :=
  loading

/-- `products.filter(p => p.quantity <= p.reorderLevel)` (Reports.tsx line 25,
and the same filter behind the Dashboard's low-stock count). -/
def lowStockProducts (products : List Product) : List Product :=
  products.filter (fun p => decide (p.quantity ≤ p.reorderLevel))

/-- `products.length`, the Total Products figure. -/
def totalCount (products : List Product) : Nat :=
  products.length

/-- `products.reduce((sum, p) => sum + (p.quantity * p.price), 0)`, the Total
Value figure of both the Reports summary and the Dashboard cards. -/
def totalValue (products : List Product) : ℚ :=
  products.foldl (fun sum p => sum + (p.quantity : ℚ) * p.price) 0

/-- `lowStockProducts.length`, the Low Stock Items figure. -/
def lowStockCount (products : List Product) : Nat :=
  (lowStockProducts products).length

/-- JavaScript's `Math.round` on the (non-negative) values arising here:
round half away from zero, i.e. the floor of `x + 1/2`. -/
def jsRound (x : ℚ) : ℤ :=
  ⌊x + 1 / 2⌋

/-- The Stock Health card,
`Math.round(((products.length - lowStockProducts.length) / products.length) * 100)`,
rendered only behind the `products.length > 0` guard of the summary section
(Reports.tsx lines 163-217); `none` when the list is empty. -/
def stockHealthPercent (products : List Product) : Option ℤ :=
  if products.length = 0 then none
  else some (jsRound (((products.length : ℚ) - (lowStockCount products : ℚ))
    / (products.length : ℚ) * 100))

/-- Which export is in flight: the `isExporting` state of `Reports`. -/
inductive ExportKind where
  | pdf
  | excel
deriving DecidableEq, Repr

/-- How an awaited collaborator call settles: resolution, or rejection
carrying an optional error message (`error.message` when the thrown value is
an `Error`). -/
inductive Outcome where
  | ok
  | fail (errMsg : Option String)
deriving DecidableEq, Repr

/-- A toast notification (`toast.success` / `toast.error`). -/
inductive Toast where
  | success (msg : String)
  | error (msg : String)
deriving DecidableEq, Repr

/-- The draft `handleSubmit` builds from the form text: the numeric fields are
`parseInt` / `parseFloat` results, where `none` models `NaN`. -/
structure ProductDraft where
  name : String
  sku : String
  quantity : Option Int
  price : Option ℚ
  reorderLevel : Option Int
deriving DecidableEq, Repr

/-- A call issued to an external collaborator. -/
inductive Call where
  | updateStock (productId : String) (delta : Int)
  | addProduct (draft : ProductDraft)
  | exportPDF (products lowStockPs : List Product) (totalVal : ℚ)
  | exportExcel (products lowStockPs : List Product) (totalVal : ℚ)
deriving DecidableEq, Repr

/-- What one run of a handler does: the collaborator calls it issues, the
toasts it shows, its flag state after the run, and whether an exception
escapes it. -/
structure RunResult (σ : Type) where
  calls : List Call
  toasts : List Toast
  finalState : σ
  rethrown : Bool

/-- The string form of the AddProduct form (all five fields are text inputs). -/
structure FormData where
  name : String
  sku : String
  quantity : String
  price : String
  reorderLevel : String
deriving DecidableEq, Repr

/-- The reset value of the form: every field the empty string. -/
def emptyForm : FormData :=
  ⟨"", "", "", "", ""⟩

/-- The AddProduct component state after a submit: the form fields and the
`loading` flag. -/
structure SubmitState where
  formData : FormData
  loading : Bool
deriving DecidableEq, Repr

/-- Value of a decimal digit character. -/
def digitVal (c : Char) : Nat :=
  c.toNat - 48

/-- The longest run of decimal digits at the head of the character list. -/
def leadingDigits (cs : List Char) : List Char :=
  cs.takeWhile (fun c => c.isDigit)

/-- The number a digit run denotes in base 10. -/
def digitsToNat (cs : List Char) : Nat :=
  cs.foldl (fun acc c => acc * 10 + digitVal c) 0

/-- JavaScript's `parseInt(s)` in base 10 on the inputs arising here: skip
leading whitespace, read an optional sign and then the longest run of decimal
digits; `none` models the `NaN` it yields when no digit is read (as for
`parseInt("abc")`). -/
def parseIntJS (s : String) : Option Int :=
  match s.toList.dropWhile (fun c => c.isWhitespace) with
  | '-' :: rest =>
    let ds := leadingDigits rest
    if ds.isEmpty then none else some (-(digitsToNat ds : Int))
  | '+' :: rest =>
    let ds := leadingDigits rest
    if ds.isEmpty then none else some ((digitsToNat ds : Int))
  | cs =>
    let ds := leadingDigits cs
    if ds.isEmpty then none else some ((digitsToNat ds : Int))

/-- The unsigned part of `parseFloat`: integer digits, optionally a decimal
point and fraction digits; `none` models `NaN` (no digit at all). -/
def parseFloatCore (cs : List Char) : Option ℚ :=
  let intDs := leadingDigits cs
  match cs.drop intDs.length with
  | '.' :: fr =>
    let frDs := leadingDigits fr
    if intDs.isEmpty ∧ frDs.isEmpty then none
    else some ((digitsToNat intDs : ℚ) + (digitsToNat frDs : ℚ) / ((10 : ℚ) ^ frDs.length))
  | _ => if intDs.isEmpty then none else some ((digitsToNat intDs : ℚ))

/-- JavaScript's `parseFloat(s)` on the decimal forms arising here (optional
sign, digits, optional fraction; exponents do not occur in these inputs);
`none` models `NaN`. -/
def parseFloatJS (s : String) : Option ℚ :=
  match s.toList.dropWhile (fun c => c.isWhitespace) with
  | '-' :: rest => (parseFloatCore rest).map (fun q => -q)
  | '+' :: rest => parseFloatCore rest
  | cs => parseFloatCore cs

/-- The draft product `handleSubmit` constructs from the form text
(src/unnamed/part_000 lines 44-50). -/
def draftOf (formData : FormData) : ProductDraft :=
  ⟨formData.name, formData.sku, parseIntJS formData.quantity,
    parseFloatJS formData.price, parseIntJS formData.reorderLevel⟩

/-- One run of `handleRestock` (Dashboard, Reports.tsx lines 381-395) from a
given `processingId` state: look the product up by id; if found, set the flag,
compute `Math.max(10, reorderLevel * 2)`, await `onUpdateStock(productId,
restockAmount)`, toast on either outcome, and clear the flag in `finally`.
The source performs no check of `processingId` on entry. -/
def handleRestockRun (processingId : Option String) (products : List Product)
    (productId : String) (outcome : Outcome) : RunResult (Option String) :=
  match products.find? (fun p => p.id == productId) with
  | none => ⟨[], [], processingId, false⟩
  | some product =>
    let restockAmount : Int := max 10 ((product.reorderLevel : Int) * 2)
    match outcome with
    | Outcome.ok =>
      ⟨[Call.updateStock productId restockAmount],
        [Toast.success ("Successfully restocked " ++ toString restockAmount ++ " units!")],
        none, false⟩
    | Outcome.fail _ =>
      ⟨[Call.updateStock productId restockAmount],
        [Toast.error "Failed to restock. Please try again."], none, false⟩

/-- One run of `handleSell` (Dashboard, Reports.tsx lines 397-410): look the
product up by id; if found and `quantity > 0`, set the flag, await
`onUpdateStock(productId, -1)`, toast on either outcome, and clear the flag in
`finally`.  The source performs no check of `processingId` on entry. -/
def handleSellRun (processingId : Option String) (products : List Product)
    (productId : String) (outcome : Outcome) : RunResult (Option String) :=
  match products.find? (fun p => p.id == productId) with
  | none => ⟨[], [], processingId, false⟩
  | some product =>
    if 0 < product.quantity then
      match outcome with
      | Outcome.ok =>
        ⟨[Call.updateStock productId (-1)], [Toast.success "Successfully sold 1 unit!"],
          none, false⟩
      | Outcome.fail _ =>
        ⟨[Call.updateStock productId (-1)], [Toast.error "Failed to sell. Please try again."],
          none, false⟩
    else ⟨[], [], processingId, false⟩

/-- One run of `exportToPDF` (Reports.tsx lines 42-62): return immediately
when `isExporting` is set; otherwise set it to pdf, await
`ExportService.exportToPDF` on the snapshot, toast on either outcome (the
rejection's own message when it carries one, else the generic text), and clear
the flag in `finally`. -/
def exportToPDFRun (isExporting : Option ExportKind) (products : List Product)
    (outcome : Outcome) : RunResult (Option ExportKind) :=
  match isExporting with
  | some k => ⟨[], [], some k, false⟩
  | none =>
    match outcome with
    | Outcome.ok =>
      ⟨[Call.exportPDF products (lowStockProducts products) (totalValue products)],
        [Toast.success "PDF report exported successfully!"], none, false⟩
    | Outcome.fail errMsg =>
      ⟨[Call.exportPDF products (lowStockProducts products) (totalValue products)],
        [Toast.error (errMsg.getD "Failed to export PDF. Please try again.")], none, false⟩

/-- One run of `exportToExcel` (Reports.tsx lines 65-85), the mirror image of
`exportToPDF`. -/
def exportToExcelRun (isExporting : Option ExportKind) (products : List Product)
    (outcome : Outcome) : RunResult (Option ExportKind) :=
  match isExporting with
  | some k => ⟨[], [], some k, false⟩
  | none =>
    match outcome with
    | Outcome.ok =>
      ⟨[Call.exportExcel products (lowStockProducts products) (totalValue products)],
        [Toast.success "Excel report exported successfully!"], none, false⟩
    | Outcome.fail errMsg =>
      ⟨[Call.exportExcel products (lowStockProducts products) (totalValue products)],
        [Toast.error (errMsg.getD "Failed to export Excel. Please try again.")], none, false⟩

/-- One run of `handleSubmit` (src/unnamed/part_000 lines 39-69): set
`loading`, build the draft from the form text, await `onAddProduct(product)`;
on resolution reset every field to the empty string and toast success, on
rejection keep the form as entered and toast failure; clear `loading` in
`finally`. -/
def handleSubmitRun (formData : FormData) (outcome : Outcome) : RunResult SubmitState :=
  let product := draftOf formData
  match outcome with
  | Outcome.ok =>
    ⟨[Call.addProduct product], [Toast.success "Product added successfully!"],
      ⟨emptyForm, false⟩, false⟩
  | Outcome.fail _ =>
    ⟨[Call.addProduct product], [Toast.error "Failed to add product. Please try again."],
      ⟨formData, false⟩, false⟩

/-- Sample products used by concrete witnesses. -/
def sampleA : Product :=
  ⟨"p1", "Widget", "SKU-1", 5, 2, 10⟩

def sampleB : Product :=
  ⟨"p2", "Gadget", "SKU-2", 16, 3, 10⟩

def sampleC : Product :=
  ⟨"p3", "Chair", "SKU-3", 3, 5, 10⟩

def sampleD : Product :=
  ⟨"p4", "Desk", "SKU-4", 1, 4, 2⟩

def sampleE : Product :=
  ⟨"p5", "Lamp", "SKU-5", 0, 6, 2⟩

lemma classify_eq_lowStock (q r : Nat) :
    classify q r = StockStatus.LowStock ↔ q ≤ r := by
  unfold classify
  split_ifs with h1 h2 <;> simp [h1]

lemma classify_eq_medium (q r : Nat) :
    classify q r = StockStatus.Medium ↔ ¬ q ≤ r ∧ (q : ℚ) ≤ (r : ℚ) * (3 / 2) := by
  unfold classify
  split_ifs with h1 h2
  · simp [h1]
  · simp [h1, h2]
  · simp [h1, h2]

lemma classify_eq_good (q r : Nat) :
    classify q r = StockStatus.Good ↔ ¬ q ≤ r ∧ ¬ (q : ℚ) ≤ (r : ℚ) * (3 / 2) := by
  unfold classify
  split_ifs with h1 h2
  · simp [h1]
  · simp [h1, h2]
  · simp [h1, h2]

lemma foldl_add_eq (f : Product → ℚ) (ps : List Product) (a : ℚ) :
    ps.foldl (fun s p => s + f p) a = a + (ps.map f).sum := by
  induction ps generalizing a with
  | nil => simp
  | cons p t ih =>
    rw [List.foldl_cons, ih, List.map_cons, List.sum_cons]
    ring

lemma totalValue_eq_sum (ps : List Product) :
    totalValue ps = (ps.map (fun p => (p.quantity : ℚ) * p.price)).sum := by
  unfold totalValue
  rw [foldl_add_eq, zero_add]

lemma lowStock_filter_classify (ps : List Product) :
    lowStockProducts ps
      = ps.filter (fun p => decide (classify p.quantity p.reorderLevel = StockStatus.LowStock)) := by
  unfold lowStockProducts
  apply List.filter_congr
  intro p _
  simp [classify_eq_lowStock]

lemma find?_id_of_mem (ps : List Product) (p : Product)
    (hnd : (ps.map Product.id).Nodup) (hp : p ∈ ps) :
    ps.find? (fun q => q.id == p.id) = some p := by
  induction ps with
  | nil => simp at hp
  | cons a t ih =>
    rw [List.map_cons, List.nodup_cons] at hnd
    rcases List.mem_cons.mp hp with h | hmem
    · subst h
      simp
    · have hne : (a.id == p.id) = false := by
        rw [beq_eq_false_iff_ne, ne_eq]
        intro h
        exact hnd.1 (h ▸ List.mem_map_of_mem Product.id hmem)
      rw [List.find?_cons, hne, ih hnd.2 hmem]

lemma restock_rethrown (flag : Option String) (ps : List Product) (pid : String)
    (o : Outcome) : (handleRestockRun flag ps pid o).rethrown = false := by
  unfold handleRestockRun
  cases ps.find? (fun p => p.id == pid) <;> cases o <;> rfl

lemma restock_flag_cleared (flag : Option String) (ps : List Product) (pid : String)
    (o : Outcome) : (handleRestockRun flag ps pid o).calls ≠ [] →
    (handleRestockRun flag ps pid o).finalState = none := by
  unfold handleRestockRun
  split
  · intro h
    exact absurd rfl h
  · intro _
    cases o <;> rfl

lemma restock_fail_toast (flag : Option String) (ps : List Product) (pid : String)
    (m : Option String) : (handleRestockRun flag ps pid (Outcome.fail m)).calls ≠ [] →
    (handleRestockRun flag ps pid (Outcome.fail m)).toasts
      = [Toast.error "Failed to restock. Please try again."] := by
  unfold handleRestockRun
  split
  · intro h
    exact absurd rfl h
  · intro _
    rfl

lemma sell_rethrown (flag : Option String) (ps : List Product) (pid : String)
    (o : Outcome) : (handleSellRun flag ps pid o).rethrown = false := by
  unfold handleSellRun
  split
  · rfl
  · split
    · cases o <;> rfl
    · rfl

lemma sell_flag_cleared (flag : Option String) (ps : List Product) (pid : String)
    (o : Outcome) : (handleSellRun flag ps pid o).calls ≠ [] →
    (handleSellRun flag ps pid o).finalState = none := by
  unfold handleSellRun
  split
  · intro h
    exact absurd rfl h
  · split
    · intro _
      cases o <;> rfl
    · intro h
      exact absurd rfl h

lemma sell_fail_toast (flag : Option String) (ps : List Product) (pid : String)
    (m : Option String) : (handleSellRun flag ps pid (Outcome.fail m)).calls ≠ [] →
    (handleSellRun flag ps pid (Outcome.fail m)).toasts
      = [Toast.error "Failed to sell. Please try again."] := by
  unfold handleSellRun
  split
  · intro h
    exact absurd rfl h
  · split
    · intro _
      rfl
    · intro h
      exact absurd rfl h

/-- C1: `classify` returns exactly one of the three tiers, decided by
first-match priority: LowStock iff `quantity ≤ reorderLevel`; else Medium iff
`quantity ≤ reorderLevel * 1.5`; else Good.  In particular `classify 0 0` is
LowStock, `classify q 0` is Good for every positive `q`, and `classify r r` is
LowStock for every `r` (the boundary is inclusive of LowStock). -/
theorem classify_first_match (q r : Nat) :
    (classify q r = StockStatus.LowStock ↔ q ≤ r) ∧
    (classify q r = StockStatus.Medium ↔ ¬ q ≤ r ∧ (q : ℚ) ≤ (r : ℚ) * (3 / 2)) ∧
    (classify q r = StockStatus.Good ↔ ¬ q ≤ r ∧ ¬ (q : ℚ) ≤ (r : ℚ) * (3 / 2)) ∧
    classify 0 0 = StockStatus.LowStock ∧
    classify (q + 1) 0 = StockStatus.Good ∧
    classify r r = StockStatus.LowStock := by
  refine ⟨classify_eq_lowStock q r, classify_eq_medium q r, classify_eq_good q r,
    by decide, ?_, (classify_eq_lowStock r r).mpr le_rfl⟩
  refine (classify_eq_good (q + 1) 0).mpr ⟨by omega, ?_⟩
  rw [Nat.cast_zero, zero_mul, not_le]
  exact_mod_cast Nat.succ_pos q

/-- C2: over any product list, `totalCount` is the length, `totalValue` the
sum of `quantity * price`, `lowStockCount` the number of products classified
LowStock, and the stock-health percentage is
`round(100 * (totalCount - lowStockCount) / totalCount)` when the list is
non-empty and not computed when it is empty; the empty list yields 0, 0, 0 and
no percentage. -/
theorem aggregate_metrics (ps : List Product) :
    totalCount ps = ps.length ∧
    totalValue ps = (ps.map (fun p => (p.quantity : ℚ) * p.price)).sum ∧
    lowStockCount ps
      = (ps.filter (fun p =>
          decide (classify p.quantity p.reorderLevel = StockStatus.LowStock))).length ∧
    stockHealthPercent ps
      = (if ps.length = 0 then none
        else some (jsRound
          (100 * ((ps.length : ℚ) - (lowStockCount ps : ℚ)) / (ps.length : ℚ)))) ∧
    totalCount ([] : List Product) = 0 ∧ totalValue [] = 0 ∧ lowStockCount [] = 0 ∧
    stockHealthPercent [] = none := by
  refine ⟨rfl, totalValue_eq_sum ps, ?_, ?_, rfl, rfl, rfl, rfl⟩
  · unfold lowStockCount
    rw [lowStock_filter_classify]
  · unfold stockHealthPercent
    by_cases h : ps.length = 0
    · rw [if_pos h, if_pos h]
    · rw [if_neg h, if_neg h]
      congr 1
      ring_nf

/-- C3: for a product present in the list (ids unique per the data model),
`handleRestock` passes exactly `max(10, reorderLevel * 2)` as the signed delta
to the stock-update collaborator, whatever the in-flight state, the current
quantity and the call's outcome. -/
theorem handleRestock_delta (flag : Option String) (ps : List Product) (p : Product)
    (o : Outcome) (hnd : (ps.map Product.id).Nodup) (hp : p ∈ ps) :
    (handleRestockRun flag ps p.id o).calls
      = [Call.updateStock p.id (max 10 ((p.reorderLevel : Int) * 2))] := by
  unfold handleRestockRun
  rw [find?_id_of_mem ps p hnd hp]
  cases o <;> rfl

/-- Witness for C3: restocking `sampleC` (quantity 3, reorder level 10) passes
delta `20 = max(10, 10 * 2)`. -/
theorem handleRestock_delta_witness :
    (handleRestockRun none [sampleC] sampleC.id Outcome.ok).calls
      = [Call.updateStock "p3" 20] := by
  have h := handleRestock_delta none [sampleC] sampleC Outcome.ok (by simp) (by simp)
  simpa [sampleC] using h

/-- C4: for a product present in the list (ids unique per the data model),
`handleSell` passes delta `-1` to the stock-update collaborator when the
quantity is positive, and when the quantity is zero it issues no call and the
sell control is disabled. -/
theorem handleSell_spec (flag : Option String) (ps : List Product) (p : Product)
    (o : Outcome) (hnd : (ps.map Product.id).Nodup) (hp : p ∈ ps) :
    (0 < p.quantity → (handleSellRun flag ps p.id o).calls = [Call.updateStock p.id (-1)]) ∧
    (p.quantity = 0 →
      (handleSellRun flag ps p.id o).calls = [] ∧ sellButtonDisabled p = true) := by
  have hfind := find?_id_of_mem ps p hnd hp
  constructor
  · intro hq
    unfold handleSellRun
    rw [hfind]
    dsimp only
    rw [if_pos hq]
    cases o <;> rfl
  · intro hq
    refine ⟨?_, by simp [sellButtonDisabled, hq]⟩
    unfold handleSellRun
    rw [hfind]
    dsimp only
    rw [if_neg (by omega)]

/-- Witness for C4: selling `sampleD` (quantity 1) issues delta `-1`; selling
`sampleE` (quantity 0) issues no call and the control is disabled. -/
theorem handleSell_spec_witness :
    (handleSellRun none [sampleD] sampleD.id Outcome.ok).calls
      = [Call.updateStock sampleD.id (-1)] ∧
    ((handleSellRun none [sampleE] sampleE.id Outcome.ok).calls = [] ∧
      sellButtonDisabled sampleE = true) := by
  constructor
  · exact (handleSell_spec none [sampleD] sampleD Outcome.ok (by simp) (by simp)).1
      (by norm_num [sampleD])
  · exact (handleSell_spec none [sampleE] sampleE Outcome.ok (by simp) (by simp)).2
      (by norm_num [sampleE])

/-- C5 counterexample: with a prior restock call on "p1" still in flight
(`processingId = some "p1"`), triggering `handleRestock` on "p1" again issues
a second stock-update call — the handler performs no in-flight check. -/
theorem restock_reentry_counterexample :
    (handleRestockRun (some "p1") [⟨"p1", "Widget", "SKU-1", 3, 2, 10⟩] "p1"
        Outcome.ok).calls = [Call.updateStock "p1" 20] ∧
    (handleRestockRun (some "p1") [⟨"p1", "Widget", "SKU-1", 3, 2, 10⟩] "p1"
        Outcome.ok).calls ≠ [] := by
  constructor <;> decide

/-- C5 (amended): only the export handlers guard re-invocation by returning
immediately while `isExporting` is set, and the create form's submit control
is disabled while `loading` is set; the restock and sell handlers never
consult `processingId` — the calls they issue are the same whatever its
value, so a repeat trigger while a prior call is in flight issues a second
call. -/
theorem inflight_guard_amended (k : ExportKind) (flag flag' : Option String)
    (ps : List Product) (pid : String) (o : Outcome) :
    (exportToPDFRun (some k) ps o).calls = [] ∧
    (exportToExcelRun (some k) ps o).calls = [] ∧
    submitButtonDisabled true = true ∧
    (handleRestockRun flag ps pid o).calls = (handleRestockRun flag' ps pid o).calls ∧
    (handleSellRun flag ps pid o).calls = (handleSellRun flag' ps pid o).calls := by
  refine ⟨rfl, rfl, rfl, ?_, ?_⟩
  · unfold handleRestockRun
    cases ps.find? (fun p => p.id == pid) <;> cases o <;> rfl
  · unfold handleSellRun
    cases ps.find? (fun p => p.id == pid) with
    | none => rfl
    | some p => by_cases h : 0 < p.quantity <;> cases o <;> simp [h]

/-- C6: every collaborator call of the views settles without re-throwing: the
run's `rethrown` is always false, a rejection surfaces exactly one error
toast, and whenever a call was issued the handler's in-flight/loading flag is
cleared afterwards whatever the outcome. -/
theorem collaborator_error_policy (ps : List Product) (pid : String) (formData : FormData)
    (flag : Option String) (o : Outcome) (m : Option String) :
    ((exportToPDFRun none ps o).rethrown = false ∧
      (exportToPDFRun none ps o).finalState = none ∧
      (exportToPDFRun none ps (Outcome.fail m)).toasts
        = [Toast.error (m.getD "Failed to export PDF. Please try again.")]) ∧
    ((exportToExcelRun none ps o).rethrown = false ∧
      (exportToExcelRun none ps o).finalState = none ∧
      (exportToExcelRun none ps (Outcome.fail m)).toasts
        = [Toast.error (m.getD "Failed to export Excel. Please try again.")]) ∧
    ((handleRestockRun flag ps pid o).rethrown = false ∧
      ((handleRestockRun flag ps pid o).calls ≠ [] →
        (handleRestockRun flag ps pid o).finalState = none) ∧
      ((handleRestockRun flag ps pid (Outcome.fail m)).calls ≠ [] →
        (handleRestockRun flag ps pid (Outcome.fail m)).toasts
          = [Toast.error "Failed to restock. Please try again."])) ∧
    ((handleSellRun flag ps pid o).rethrown = false ∧
      ((handleSellRun flag ps pid o).calls ≠ [] →
        (handleSellRun flag ps pid o).finalState = none) ∧
      ((handleSellRun flag ps pid (Outcome.fail m)).calls ≠ [] →
        (handleSellRun flag ps pid (Outcome.fail m)).toasts
          = [Toast.error "Failed to sell. Please try again."])) ∧
    ((handleSubmitRun formData o).rethrown = false ∧
      (handleSubmitRun formData o).finalState.loading = false ∧
      (handleSubmitRun formData (Outcome.fail m)).toasts
        = [Toast.error "Failed to add product. Please try again."]) := by
  refine ⟨⟨?_, ?_, rfl⟩, ⟨?_, ?_, rfl⟩,
    ⟨restock_rethrown flag ps pid o, restock_flag_cleared flag ps pid o,
      restock_fail_toast flag ps pid m⟩,
    ⟨sell_rethrown flag ps pid o, sell_flag_cleared flag ps pid o,
      sell_fail_toast flag ps pid m⟩,
    ⟨?_, ?_, rfl⟩⟩ <;> cases o <;> rfl

/-- C7: a rejected submission leaves every form field as entered and surfaces
the failure toast; a resolved submission resets every field to the empty
string and surfaces the success toast. -/
theorem submit_outcome_spec (formData : FormData) (m : Option String) :
    ((handleSubmitRun formData (Outcome.fail m)).finalState.formData = formData ∧
      (handleSubmitRun formData (Outcome.fail m)).toasts
        = [Toast.error "Failed to add product. Please try again."]) ∧
    ((handleSubmitRun formData Outcome.ok).finalState.formData = emptyForm ∧
      (handleSubmitRun formData Outcome.ok).finalState.formData.name = "" ∧
      (handleSubmitRun formData Outcome.ok).finalState.formData.sku = "" ∧
      (handleSubmitRun formData Outcome.ok).finalState.formData.quantity = "" ∧
      (handleSubmitRun formData Outcome.ok).finalState.formData.price = "" ∧
      (handleSubmitRun formData Outcome.ok).finalState.formData.reorderLevel = "" ∧
      (handleSubmitRun formData Outcome.ok).toasts
        = [Toast.success "Product added successfully!"]) :=
  ⟨⟨rfl, rfl⟩, ⟨rfl, rfl, rfl, rfl, rfl, rfl, rfl⟩⟩

/-- C8 counterexample: submitting the form with quantity text "abc" invokes
the create collaborator anyway, with the NaN sentinel (`none`) as the parsed
quantity — no guard precedes the call. -/
theorem submit_nan_counterexample :
    parseIntJS "abc" = none ∧
    (handleSubmitRun ⟨"Desk Lamp", "SKU-9", "abc", "5", "2"⟩ Outcome.ok).calls
      = [Call.addProduct ⟨"Desk Lamp", "SKU-9", none, some 5, some 2⟩] := by
  constructor <;> decide

/-- C8 (amended): the form layer does not guard against non-numeric input: on
every submission `onAddProduct` is invoked exactly once with the parsed draft,
whose numeric fields are the raw `parseInt` / `parseFloat` results — the NaN
sentinel (`none`) included, as for quantity text "abc". -/
theorem submit_no_guard_amended (formData : FormData) (o : Outcome) :
    (handleSubmitRun formData o).calls
      = [Call.addProduct ⟨formData.name, formData.sku, parseIntJS formData.quantity,
          parseFloatJS formData.price, parseIntJS formData.reorderLevel⟩] ∧
    parseIntJS "abc" = none := by
  refine ⟨?_, by decide⟩
  cases o <;> rfl

/-- C9 counterexample: on a product with quantity 14 and reorder level 10,
`classify` (and `getProductStatus` and the Reports badge) yields Medium, but
the Dashboard table badge shows "OK" — the Dashboard never displays the
Medium tier. -/
theorem dashboard_badge_counterexample :
    classify 14 10 = StockStatus.Medium ∧
    getProductStatus ⟨"p6", "Widget", "SKU-1", 14, 2, 10⟩ = "Medium" ∧
    dashboardStatusBadge ⟨"p6", "Widget", "SKU-1", 14, 2, 10⟩ = "OK" ∧
    ("OK" : String) ≠ statusLabel StockStatus.Medium := by
  refine ⟨by norm_num [classify], by norm_num [getProductStatus], by decide, by decide⟩

/-- C9 (amended): `getProductStatus` and the Reports table badge agree exactly
with the three-tier `classify`; the Dashboard table badge is only two-tier: it
shows "Low Stock" exactly when `classify` yields LowStock and collapses the
Medium and Good tiers into "OK". -/
theorem status_badges_amended (p : Product) :
    getProductStatus p = statusLabel (classify p.quantity p.reorderLevel) ∧
    reportsStatusBadge p = statusLabel (classify p.quantity p.reorderLevel) ∧
    (dashboardStatusBadge p = statusLabel StockStatus.LowStock ↔
      classify p.quantity p.reorderLevel = StockStatus.LowStock) ∧
    (dashboardStatusBadge p = "OK" ↔
      classify p.quantity p.reorderLevel ≠ StockStatus.LowStock) := by
  unfold getProductStatus reportsStatusBadge dashboardStatusBadge classify
  split_ifs with h1 h2 <;> decide

/-- C10: the aggregate metrics are invariant under any permutation of the
product list. -/
theorem aggregate_perm_invariant (ps qs : List Product) (h : ps.Perm qs) :
    totalCount ps = totalCount qs ∧ totalValue ps = totalValue qs ∧
    lowStockCount ps = lowStockCount qs ∧
    stockHealthPercent ps = stockHealthPercent qs := by
  have hlen : ps.length = qs.length := h.length_eq
  have hval : totalValue ps = totalValue qs := by
    rw [totalValue_eq_sum, totalValue_eq_sum]
    exact (h.map _).sum_eq
  have hlow : lowStockCount ps = lowStockCount qs := by
    unfold lowStockCount lowStockProducts
    exact (h.filter _).length_eq
  refine ⟨hlen, hval, hlow, ?_⟩
  unfold stockHealthPercent
  rw [hlen, hlow]

/-- Witness for C10 at a concrete two-element list and its transposition. -/
theorem aggregate_perm_invariant_witness :
    totalCount [sampleA, sampleB] = totalCount [sampleB, sampleA] ∧
    totalValue [sampleA, sampleB] = totalValue [sampleB, sampleA] ∧
    lowStockCount [sampleA, sampleB] = lowStockCount [sampleB, sampleA] ∧
    stockHealthPercent [sampleA, sampleB] = stockHealthPercent [sampleB, sampleA] :=
  aggregate_perm_invariant [sampleA, sampleB] [sampleB, sampleA]
    (List.Perm.swap sampleB sampleA [])

end Inventory
